import Mathlib

/-!
Verification of the `PixelMask` nullable pixel wrapper and its dispatch
framework from `src/vw/Image/PixelMask.h`.

Channels are modelled as `Int`; a payload (child pixel value) is the list of
its channel values.  The external `ChannelRange` provider is modelled by two
parameters `rmin`/`rmax` (its `min()` and `max()` values for the channel
type); the canonical instantiation for the usual unsigned image channel is
`rmin = 0`, `rmax = 255`.  C++ truthiness of a channel value used as a
condition is `(≠ 0)`.
-/

set_option maxHeartbeats 1000000

namespace VW

/-- `struct PixelMask` (PixelMask.h, lines 104-210): a wrapped child payload
`m_child` (one integer per payload channel) plus one validity channel
`m_valid`. -/
structure PixelMask where
  m_child : List Int
  m_valid : Int
  deriving Repr, DecidableEq

/-- `valid()` (line 162): returns the raw validity channel value. -/
def PixelMask.valid (p : PixelMask) : Int := p.m_valid

/-- C++ truthiness of `valid()` when it is used as an `if` condition
(`if (arg.valid())`): nonzero means true. -/
def PixelMask.isValid (p : PixelMask) : Bool := p.m_valid != 0

/-- `child()` (line 171): the payload by itself. -/
def PixelMask.child (p : PixelMask) : List Int := p.m_child

/-- Default constructor (lines 118-121): zero payload of `k` channels,
validity set to `ChannelRange::min()`. -/
def PixelMask.mkDefault (rmin : Int) (k : Nat) : PixelMask :=
  ⟨List.replicate k 0, rmin⟩

/-- Implicit constructor from a bare/child value (lines 126-130): payload is
the given value, validity set to `ChannelRange::max()`. -/
def PixelMask.fromChild (rmax : Int) (pix : List Int) : PixelMask :=
  ⟨pix, rmax⟩

/-- Conversion constructor from another `PixelMask` (lines 133-144).  If the
source tests valid (truthiness), the payload is converted (`conv` models the
child-type conversion, here over `k`-channel targets) and validity set to
`max`; otherwise the payload is the default (zero) child value and the
validity channel is `channel_type()`, i.e. zero. -/
def PixelMask.convert (rmax : Int) (k : Nat) (conv : List Int → List Int)
    (other : PixelMask) : PixelMask :=
  if other.m_valid != 0 then ⟨conv other.m_child, rmax⟩
  else ⟨List.replicate k 0, 0⟩

/-- Two-channel positional constructor (lines 147-149). -/
def PixelMask.mkCh2 (rmax a0 a1 : Int) : PixelMask := ⟨[a0, a1], rmax⟩

/-- Three-channel positional constructor (lines 152-154). -/
def PixelMask.mkCh3 (rmax a0 a1 a2 : Int) : PixelMask := ⟨[a0, a1, a2], rmax⟩

/-- Four-channel positional constructor (lines 157-159). -/
def PixelMask.mkCh4 (rmax a0 a1 a2 a3 : Int) : PixelMask :=
  ⟨[a0, a1, a2, a3], rmax⟩

/-- `invalidate()` (line 165): validity becomes `ChannelRange::min()`. -/
def PixelMask.invalidate (rmin : Int) (p : PixelMask) : PixelMask :=
  { p with m_valid := rmin }

/-- `validate()` (line 168): validity becomes `ChannelRange::max()`. -/
def PixelMask.validate (rmax : Int) (p : PixelMask) : PixelMask :=
  { p with m_valid := rmax }

/-- Immutable channel indexing `operator[]` (lines 190-195): index equal to
the child's channel count yields the validity channel, otherwise the
payload's own channel (out-of-range payload access, undefined in the C++,
is modelled by the `getD` default). -/
def PixelMask.getChan (p : PixelMask) (i : Nat) : Int :=
  if i = p.m_child.length then p.m_valid else p.m_child.getD i 0

/-- Mutable channel indexing `operator[]` (lines 183-188), as a functional
update: writing through the returned reference either sets the validity
channel (index = child channel count) or the payload channel. -/
def PixelMask.setChan (p : PixelMask) (i : Nat) (v : Int) : PixelMask :=
  if i = p.m_child.length then { p with m_valid := v }
  else { p with m_child := p.m_child.set i v }

/-- `is_transparent` (line 247): true exactly when the pixel tests invalid. -/
def is_transparent (p : PixelMask) : Bool := !p.isValid

/-- `mean_channel_value` (lines 230-243).  `num_channels` is
`CompoundNumChannels<T>::value` for the CHILD type `T`, i.e. the payload
channel count; the loop adds channels `0 .. num_channels-2` of the masked
pixel and the sum is divided by `num_channels` (the `double` accumulator is
modelled by `Rat`). -/
def mean_channel_value (arg : PixelMask) : Rat :=
  if arg.isValid then
    let num_channels := arg.m_child.length
    let accum : Rat :=
      ((List.range (num_channels - 1)).map fun i => ((arg.getChan i : Int) : Rat)).sum
    accum / (num_channels : Rat)
  else 0

/-!
Channel-count dispatch framework.  In the C++ each functor dispatches on the
compile-time channel count of the masked result/argument type
(`CompoundNumChannels = k + 1` for a `k`-channel payload) to one of five
`Helper` code paths: specializations for `ChannelsN` 2..5 (payload channel
counts 1..4) and a general loop otherwise.  Here `k` is the payload channel
count and `call` performs the same compile-time selection.
-/

/-- General binary functional `Helper::construct` (lines 258-270): when both
arguments test valid, fill each payload channel `i < ChannelsN - 1 = k` of a
default-constructed result with `func(arg1[i], arg2[i])` and then
`validate()` it; otherwise return a default-constructed result. -/
def PixelMaskBinaryCompoundFunctor.helperGeneral (rmin rmax : Int) (k : Nat)
    (func : Int → Int → Int) (arg1 arg2 : PixelMask) : PixelMask :=
  if arg1.isValid && arg2.isValid then
    PixelMask.validate rmax
      ((List.range k).foldl
        (fun result i => result.setChan i (func (arg1.getChan i) (arg2.getChan i)))
        (PixelMask.mkDefault rmin k))
  else
    PixelMask.mkDefault rmin k

/-- Binary functional `Helper<true,2>` (lines 273-281): one payload channel,
result built with the implicit single-value constructor. -/
def PixelMaskBinaryCompoundFunctor.helper2 (rmin rmax : Int)
    (func : Int → Int → Int) (arg1 arg2 : PixelMask) : PixelMask :=
  if arg1.isValid && arg2.isValid then
    PixelMask.fromChild rmax [func (arg1.getChan 0) (arg2.getChan 0)]
  else
    PixelMask.mkDefault rmin 1

/-- Binary functional `Helper<true,3>` (lines 284-292). -/
def PixelMaskBinaryCompoundFunctor.helper3 (rmin rmax : Int)
    (func : Int → Int → Int) (arg1 arg2 : PixelMask) : PixelMask :=
  if arg1.isValid && arg2.isValid then
    PixelMask.mkCh2 rmax (func (arg1.getChan 0) (arg2.getChan 0))
      (func (arg1.getChan 1) (arg2.getChan 1))
  else
    PixelMask.mkDefault rmin 2

/-- Binary functional `Helper<true,4>` (lines 295-303). -/
def PixelMaskBinaryCompoundFunctor.helper4 (rmin rmax : Int)
    (func : Int → Int → Int) (arg1 arg2 : PixelMask) : PixelMask :=
  if arg1.isValid && arg2.isValid then
    PixelMask.mkCh3 rmax (func (arg1.getChan 0) (arg2.getChan 0))
      (func (arg1.getChan 1) (arg2.getChan 1))
      (func (arg1.getChan 2) (arg2.getChan 2))
  else
    PixelMask.mkDefault rmin 3

/-- Binary functional `Helper<true,5>` (lines 306-314). -/
def PixelMaskBinaryCompoundFunctor.helper5 (rmin rmax : Int)
    (func : Int → Int → Int) (arg1 arg2 : PixelMask) : PixelMask :=
  if arg1.isValid && arg2.isValid then
    PixelMask.mkCh4 rmax (func (arg1.getChan 0) (arg2.getChan 0))
      (func (arg1.getChan 1) (arg2.getChan 1))
      (func (arg1.getChan 2) (arg2.getChan 2))
      (func (arg1.getChan 3) (arg2.getChan 3))
  else
    PixelMask.mkDefault rmin 4

/-- `PixelMaskBinaryCompoundFunctor::operator()` (lines 330-335): selects
the `Helper` by the result's channel count `k + 1` (specializations for
`ChannelsN` 2..5, general path otherwise). -/
def PixelMaskBinaryCompoundFunctor.call (rmin rmax : Int) (k : Nat)
    (func : Int → Int → Int) (arg1 arg2 : PixelMask) : PixelMask :=
  match k with
  | 1 => PixelMaskBinaryCompoundFunctor.helper2 rmin rmax func arg1 arg2
  | 2 => PixelMaskBinaryCompoundFunctor.helper3 rmin rmax func arg1 arg2
  | 3 => PixelMaskBinaryCompoundFunctor.helper4 rmin rmax func arg1 arg2
  | 4 => PixelMaskBinaryCompoundFunctor.helper5 rmin rmax func arg1 arg2
  | n => PixelMaskBinaryCompoundFunctor.helperGeneral rmin rmax n func arg1 arg2

/-- `compound_apply` for two masked arguments (lines 344-348). -/
def compound_apply (rmin rmax : Int) (k : Nat) (func : Int → Int → Int)
    (arg1 arg2 : PixelMask) : PixelMask :=
  PixelMaskBinaryCompoundFunctor.call rmin rmax k func arg1 arg2

/-- One step of the binary in-place loops: the C++ functor call
`func(arg1[i], arg2[i])` mutates `arg1`'s channel `i` in place; `func` here
gives the new value of that channel from its old value and `arg2[i]`. -/
def inPlaceStep (func : Int → Int → Int) (arg2 : PixelMask)
    (arg1 : PixelMask) (i : Nat) : PixelMask :=
  arg1.setChan i (func (arg1.getChan i) (arg2.getChan i))

/-- General binary in-place `Helper::apply` (lines 360-370): when both test
valid, apply `func` to each payload channel `i < ChannelsN - 1 = k` of
`arg1` in place; otherwise reset `arg1` to a default-constructed value. -/
def PixelMaskBinaryInPlaceCompoundFunctor.helperGeneral (rmin : Int) (k : Nat)
    (func : Int → Int → Int) (arg1 arg2 : PixelMask) : PixelMask :=
  if arg1.isValid && arg2.isValid then
    (List.range k).foldl (inPlaceStep func arg2) arg1
  else
    PixelMask.mkDefault rmin k

/-- Binary in-place `Helper<true,2>` (lines 373-382). -/
def PixelMaskBinaryInPlaceCompoundFunctor.helper2 (rmin : Int)
    (func : Int → Int → Int) (arg1 arg2 : PixelMask) : PixelMask :=
  if arg1.isValid && arg2.isValid then
    inPlaceStep func arg2 arg1 0
  else
    PixelMask.mkDefault rmin 1

/-- Binary in-place `Helper<true,3>` (lines 385-396). -/
def PixelMaskBinaryInPlaceCompoundFunctor.helper3 (rmin : Int)
    (func : Int → Int → Int) (arg1 arg2 : PixelMask) : PixelMask :=
  if arg1.isValid && arg2.isValid then
    inPlaceStep func arg2 (inPlaceStep func arg2 arg1 0) 1
  else
    PixelMask.mkDefault rmin 2

/-- Binary in-place `Helper<true,4>` (lines 399-411). -/
def PixelMaskBinaryInPlaceCompoundFunctor.helper4 (rmin : Int)
    (func : Int → Int → Int) (arg1 arg2 : PixelMask) : PixelMask :=
  if arg1.isValid && arg2.isValid then
    inPlaceStep func arg2 (inPlaceStep func arg2 (inPlaceStep func arg2 arg1 0) 1) 2
  else
    PixelMask.mkDefault rmin 3

/-- Binary in-place `Helper<true,5>` (lines 414-427). -/
def PixelMaskBinaryInPlaceCompoundFunctor.helper5 (rmin : Int)
    (func : Int → Int → Int) (arg1 arg2 : PixelMask) : PixelMask :=
  if arg1.isValid && arg2.isValid then
    inPlaceStep func arg2
      (inPlaceStep func arg2 (inPlaceStep func arg2 (inPlaceStep func arg2 arg1 0) 1) 2) 3
  else
    PixelMask.mkDefault rmin 4

/-- `PixelMaskBinaryInPlaceCompoundFunctor::operator()` (lines 440-444):
selects the `Helper` by `CompoundNumChannels<Arg1T> = k + 1`. -/
def PixelMaskBinaryInPlaceCompoundFunctor.call (rmin : Int) (k : Nat)
    (func : Int → Int → Int) (arg1 arg2 : PixelMask) : PixelMask :=
  match k with
  | 1 => PixelMaskBinaryInPlaceCompoundFunctor.helper2 rmin func arg1 arg2
  | 2 => PixelMaskBinaryInPlaceCompoundFunctor.helper3 rmin func arg1 arg2
  | 3 => PixelMaskBinaryInPlaceCompoundFunctor.helper4 rmin func arg1 arg2
  | 4 => PixelMaskBinaryInPlaceCompoundFunctor.helper5 rmin func arg1 arg2
  | n => PixelMaskBinaryInPlaceCompoundFunctor.helperGeneral rmin n func arg1 arg2

/-- `compound_apply_in_place` for two masked arguments (lines 447-450). -/
def compound_apply_in_place (rmin : Int) (k : Nat) (func : Int → Int → Int)
    (arg1 arg2 : PixelMask) : PixelMask :=
  PixelMaskBinaryInPlaceCompoundFunctor.call rmin k func arg1 arg2

/-- General unary functional `Helper::construct` (lines 462-474). -/
def PixelMaskUnaryCompoundFunctor.helperGeneral (rmin rmax : Int) (k : Nat)
    (func : Int → Int) (arg : PixelMask) : PixelMask :=
  if arg.isValid then
    PixelMask.validate rmax
      ((List.range k).foldl
        (fun result i => result.setChan i (func (arg.getChan i)))
        (PixelMask.mkDefault rmin k))
  else
    PixelMask.mkDefault rmin k

/-- Unary functional `Helper<true,2>` (lines 477-485). -/
def PixelMaskUnaryCompoundFunctor.helper2 (rmin rmax : Int)
    (func : Int → Int) (arg : PixelMask) : PixelMask :=
  if arg.isValid then
    PixelMask.fromChild rmax [func (arg.getChan 0)]
  else
    PixelMask.mkDefault rmin 1

/-- Unary functional `Helper<true,3>` (lines 488-496). -/
def PixelMaskUnaryCompoundFunctor.helper3 (rmin rmax : Int)
    (func : Int → Int) (arg : PixelMask) : PixelMask :=
  if arg.isValid then
    PixelMask.mkCh2 rmax (func (arg.getChan 0)) (func (arg.getChan 1))
  else
    PixelMask.mkDefault rmin 2

/-- Unary functional `Helper<true,4>` (lines 499-507). -/
def PixelMaskUnaryCompoundFunctor.helper4 (rmin rmax : Int)
    (func : Int → Int) (arg : PixelMask) : PixelMask :=
  if arg.isValid then
    PixelMask.mkCh3 rmax (func (arg.getChan 0)) (func (arg.getChan 1))
      (func (arg.getChan 2))
  else
    PixelMask.mkDefault rmin 3

/-- Unary functional `Helper<true,5>` (lines 510-518). -/
def PixelMaskUnaryCompoundFunctor.helper5 (rmin rmax : Int)
    (func : Int → Int) (arg : PixelMask) : PixelMask :=
  if arg.isValid then
    PixelMask.mkCh4 rmax (func (arg.getChan 0)) (func (arg.getChan 1))
      (func (arg.getChan 2)) (func (arg.getChan 3))
  else
    PixelMask.mkDefault rmin 4

/-- `PixelMaskUnaryCompoundFunctor::operator()` (lines 533-538). -/
def PixelMaskUnaryCompoundFunctor.call (rmin rmax : Int) (k : Nat)
    (func : Int → Int) (arg : PixelMask) : PixelMask :=
  match k with
  | 1 => PixelMaskUnaryCompoundFunctor.helper2 rmin rmax func arg
  | 2 => PixelMaskUnaryCompoundFunctor.helper3 rmin rmax func arg
  | 3 => PixelMaskUnaryCompoundFunctor.helper4 rmin rmax func arg
  | 4 => PixelMaskUnaryCompoundFunctor.helper5 rmin rmax func arg
  | n => PixelMaskUnaryCompoundFunctor.helperGeneral rmin rmax n func arg

/-- `compound_apply` for one masked argument (lines 546-550). -/
def compound_apply_unary (rmin rmax : Int) (k : Nat) (func : Int → Int)
    (arg : PixelMask) : PixelMask :=
  PixelMaskUnaryCompoundFunctor.call rmin rmax k func arg

/-- One step of the unary in-place loops: `func(arg[i])` mutates channel `i`
of `arg` in place. -/
def inPlaceStep1 (func : Int → Int) (arg : PixelMask) (i : Nat) : PixelMask :=
  arg.setChan i (func (arg.getChan i))

/-- General unary in-place `Helper::apply` (lines 563-573). -/
def PixelMaskUnaryInPlaceCompoundFunctor.helperGeneral (rmin : Int) (k : Nat)
    (func : Int → Int) (arg : PixelMask) : PixelMask :=
  if arg.isValid then
    (List.range k).foldl (inPlaceStep1 func) arg
  else
    PixelMask.mkDefault rmin k

/-- Unary in-place `Helper<true,2>` (lines 576-585). -/
def PixelMaskUnaryInPlaceCompoundFunctor.helper2 (rmin : Int)
    (func : Int → Int) (arg : PixelMask) : PixelMask :=
  if arg.isValid then
    inPlaceStep1 func arg 0
  else
    PixelMask.mkDefault rmin 1

/-- Unary in-place `Helper<true,3>` (lines 588-599). -/
def PixelMaskUnaryInPlaceCompoundFunctor.helper3 (rmin : Int)
    (func : Int → Int) (arg : PixelMask) : PixelMask :=
  if arg.isValid then
    inPlaceStep1 func (inPlaceStep1 func arg 0) 1
  else
    PixelMask.mkDefault rmin 2

/-- Unary in-place `Helper<true,4>` (lines 602-614). -/
def PixelMaskUnaryInPlaceCompoundFunctor.helper4 (rmin : Int)
    (func : Int → Int) (arg : PixelMask) : PixelMask :=
  if arg.isValid then
    inPlaceStep1 func (inPlaceStep1 func (inPlaceStep1 func arg 0) 1) 2
  else
    PixelMask.mkDefault rmin 3

/-- Unary in-place `Helper<true,5>` (lines 617-630). -/
def PixelMaskUnaryInPlaceCompoundFunctor.helper5 (rmin : Int)
    (func : Int → Int) (arg : PixelMask) : PixelMask :=
  if arg.isValid then
    inPlaceStep1 func
      (inPlaceStep1 func (inPlaceStep1 func (inPlaceStep1 func arg 0) 1) 2) 3
  else
    PixelMask.mkDefault rmin 4

/-- `PixelMaskUnaryInPlaceCompoundFunctor::operator()` (lines 644-647). -/
def PixelMaskUnaryInPlaceCompoundFunctor.call (rmin : Int) (k : Nat)
    (func : Int → Int) (arg : PixelMask) : PixelMask :=
  match k with
  | 1 => PixelMaskUnaryInPlaceCompoundFunctor.helper2 rmin func arg
  | 2 => PixelMaskUnaryInPlaceCompoundFunctor.helper3 rmin func arg
  | 3 => PixelMaskUnaryInPlaceCompoundFunctor.helper4 rmin func arg
  | 4 => PixelMaskUnaryInPlaceCompoundFunctor.helper5 rmin func arg
  | n => PixelMaskUnaryInPlaceCompoundFunctor.helperGeneral rmin n func arg

/-- `compound_apply_in_place` for one masked argument (lines 655-658). -/
def compound_apply_in_place_unary (rmin : Int) (k : Nat) (func : Int → Int)
    (arg : PixelMask) : PixelMask :=
  PixelMaskUnaryInPlaceCompoundFunctor.call rmin k func arg

/-!
The two lazy views, modelled by their per-pixel computation.  A plain image
view is its pixel function (coordinates to the pixel's channel list); the
dimension forwarding and rasterization plumbing carry no per-pixel content.
-/

/-- `CreatePixelMaskView` (lines 683-723): wraps a plain view, a nodata
pixel value and a flag saying whether the nodata value is in use. -/
structure CreatePixelMaskView where
  m_view : Int → Int → Int → List Int
  m_nodata_value : List Int
  m_use_nodata_value : Bool

/-- The two-argument `CreatePixelMaskView` constructor (lines 694-695): note
that the `nodata_value` argument is NOT stored (the member list only
initializes `m_view` and sets `m_use_nodata_value` to false);
`m_nodata_value` is left default-initialized. -/
def CreatePixelMaskView.ctor (view : Int → Int → Int → List Int)
    (nodata_value : List Int) : CreatePixelMaskView :=
  ⟨view, [], false⟩

/-- `set_nodata_value` (lines 697-700): stores the value and raises the
flag. -/
def CreatePixelMaskView.set_nodata_value (v : CreatePixelMaskView)
    (value : List Int) : CreatePixelMaskView :=
  ⟨v.m_view, value, true⟩

/-- `CreatePixelMaskView::operator()` (lines 708-716): when the nodata flag
is set and the underlying pixel equals the nodata value, wrap the pixel
(implicitly valid) and `invalidate()` it; otherwise the pixel converts
implicitly to a valid masked value. -/
def CreatePixelMaskView.app (v : CreatePixelMaskView) (rmin rmax : Int)
    (col row plane : Int) : PixelMask :=
  if v.m_use_nodata_value && (v.m_view col row plane == v.m_nodata_value) then
    PixelMask.invalidate rmin (PixelMask.fromChild rmax (v.m_view col row plane))
  else
    PixelMask.fromChild rmax (v.m_view col row plane)

/-- The two-argument `create_mask` factory (lines 728-733): constructs the
view and then calls `set_nodata_value` on it. -/
def create_mask (view : Int → Int → Int → List Int) (value : List Int) :
    CreatePixelMaskView :=
  (CreatePixelMaskView.ctor view value).set_nodata_value value

/-- `ApplyPixelMaskView` (lines 749-781): wraps a masked-pixel view and a
replacement child value. -/
structure ApplyPixelMaskView where
  m_view : Int → Int → Int → PixelMask
  m_replacement_value : List Int

/-- The `ApplyPixelMaskView` constructor (line 759): note that the
`replacement_value` argument is NOT stored (only `m_view` is initialized);
`m_replacement_value` is left default-initialized, i.e. the zero child
value of `k` channels. -/
def ApplyPixelMaskView.ctor (k : Nat) (view : Int → Int → Int → PixelMask)
    (replacement_value : List Int) : ApplyPixelMaskView :=
  ⟨view, List.replicate k 0⟩

/-- `ApplyPixelMaskView::operator()` (lines 767-774): the payload when the
masked pixel is not transparent, the stored replacement value otherwise. -/
def ApplyPixelMaskView.app (v : ApplyPixelMaskView)
    (col row plane : Int) : List Int :=
  let px := v.m_view col row plane
  if !(is_transparent px) then px.m_child else v.m_replacement_value

/-- `apply_mask` (lines 786-791): constructs the view from a masked view and
a replacement value (default: the zero child value). -/
def apply_mask (k : Nat) (view : Int → Int → Int → PixelMask)
    (value : List Int) : ApplyPixelMaskView :=
  ApplyPixelMaskView.ctor k view value

/-!
Shared lemmas about the embedding.
-/

lemma list_getD_set_self (l : List Int) (i : Nat) (v : Int) (h : i < l.length) :
    (l.set i v).getD i 0 = v := by
  rw [List.getD_eq_getElem?_getD, List.getElem?_set_self h]
  rfl

lemma list_getD_set_ne (l : List Int) (i j : Nat) (v : Int) (h : i ≠ j) :
    (l.set i v).getD j 0 = l.getD j 0 := by
  rw [List.getD_eq_getElem?_getD, List.getElem?_set_ne h, ← List.getD_eq_getElem?_getD]

lemma PixelMask.length_setChan (p : PixelMask) (i : Nat) (v : Int) :
    (p.setChan i v).m_child.length = p.m_child.length := by
  unfold PixelMask.setChan
  split <;> simp

lemma PixelMask.child_setChan_ne (p : PixelMask) (i : Nat) (v : Int)
    (h : i ≠ p.m_child.length) :
    (p.setChan i v).m_child = p.m_child.set i v := by
  unfold PixelMask.setChan
  rw [if_neg h]

lemma PixelMask.valid_setChan_ne (p : PixelMask) (i : Nat) (v : Int)
    (h : i ≠ p.m_child.length) :
    (p.setChan i v).m_valid = p.m_valid := by
  unfold PixelMask.setChan
  rw [if_neg h]

lemma PixelMask.child_validate (rmax : Int) (p : PixelMask) :
    (PixelMask.validate rmax p).m_child = p.m_child := rfl

lemma PixelMask.length_mkDefault (rmin : Int) (k : Nat) :
    (PixelMask.mkDefault rmin k).m_child.length = k := by
  simp [PixelMask.mkDefault]

/-- The common shape of the general helpers' channel loops: repeatedly write
channel `i` with a value computed from the state so far. -/
def stepFold (e : PixelMask → Nat → Int) (p : PixelMask) (n : Nat) : PixelMask :=
  (List.range n).foldl (fun a i => a.setChan i (e a i)) p

lemma stepFold_zero (e : PixelMask → Nat → Int) (p : PixelMask) :
    stepFold e p 0 = p := rfl

lemma stepFold_succ (e : PixelMask → Nat → Int) (p : PixelMask) (n : Nat) :
    stepFold e p (n + 1) = (stepFold e p n).setChan n (e (stepFold e p n) n) := by
  unfold stepFold
  rw [List.range_succ, List.foldl_append]
  rfl

lemma stepFold_length (e : PixelMask → Nat → Int) (p : PixelMask) (n : Nat) :
    (stepFold e p n).m_child.length = p.m_child.length := by
  induction n with
  | zero => rfl
  | succ n ih => rw [stepFold_succ, PixelMask.length_setChan, ih]

lemma stepFold_valid (e : PixelMask → Nat → Int) (p : PixelMask) (n : Nat)
    (h : n ≤ p.m_child.length) :
    (stepFold e p n).m_valid = p.m_valid := by
  induction n with
  | zero => rfl
  | succ n ih =>
    have hn : n < p.m_child.length := Nat.lt_of_succ_le h
    have hne : n ≠ (stepFold e p n).m_child.length := by
      rw [stepFold_length]
      exact Nat.ne_of_lt hn
    rw [stepFold_succ, PixelMask.valid_setChan_ne _ _ _ hne,
      ih (Nat.le_of_lt hn)]

lemma stepFold_getD (e : PixelMask → Nat → Int) (p : PixelMask) (n : Nat)
    (h : n ≤ p.m_child.length) (i : Nat) :
    (stepFold e p n).m_child.getD i 0 =
      if i < n then e (stepFold e p i) i else p.m_child.getD i 0 := by
  induction n with
  | zero => simp [stepFold_zero]
  | succ n ih =>
    have hn : n < p.m_child.length := Nat.lt_of_succ_le h
    have hlen : (stepFold e p n).m_child.length = p.m_child.length :=
      stepFold_length e p n
    have hne : n ≠ (stepFold e p n).m_child.length := by
      rw [hlen]; exact Nat.ne_of_lt hn
    rw [stepFold_succ, PixelMask.child_setChan_ne _ _ _ hne]
    by_cases hi : i = n
    · subst hi
      rw [list_getD_set_self _ _ _ (by rw [hlen]; exact hn),
        if_pos (Nat.lt_succ_self i)]
    · rw [list_getD_set_ne _ _ _ _ (fun hni => hi hni.symm),
        ih (Nat.le_of_lt hn)]
      by_cases hlt : i < n
      · rw [if_pos hlt, if_pos (Nat.lt_succ_of_lt hlt)]
      · rw [if_neg hlt, if_neg (fun hs => hi (Nat.eq_of_lt_succ_of_not_lt hs hlt))]

lemma binFold_eq (func : Int → Int → Int) (arg1 arg2 p : PixelMask) (n : Nat) :
    (List.range n).foldl
      (fun result i => result.setChan i (func (arg1.getChan i) (arg2.getChan i))) p =
    stepFold (fun _ i => func (arg1.getChan i) (arg2.getChan i)) p n := rfl

lemma unFold_eq (func : Int → Int) (arg p : PixelMask) (n : Nat) :
    (List.range n).foldl
      (fun result i => result.setChan i (func (arg.getChan i))) p =
    stepFold (fun _ i => func (arg.getChan i)) p n := rfl

lemma inPlaceFold_eq (func : Int → Int → Int) (arg2 arg1 : PixelMask) (n : Nat) :
    (List.range n).foldl (inPlaceStep func arg2) arg1 =
    stepFold (fun a i => func (a.getChan i) (arg2.getChan i)) arg1 n := rfl

lemma inPlaceFold1_eq (func : Int → Int) (arg : PixelMask) (n : Nat) :
    (List.range n).foldl (inPlaceStep1 func) arg =
    stepFold (fun a i => func (a.getChan i)) arg n := rfl

/-- The compile-time dispatch of the binary functional functor agrees with
the general loop path at every channel count. -/
lemma binary_call_eq_general (rmin rmax : Int) (k : Nat)
    (func : Int → Int → Int) (arg1 arg2 : PixelMask) :
    PixelMaskBinaryCompoundFunctor.call rmin rmax k func arg1 arg2 =
    PixelMaskBinaryCompoundFunctor.helperGeneral rmin rmax k func arg1 arg2 :=
  match k with
  | 0 => rfl
  | 1 => rfl
  | 2 => rfl
  | 3 => rfl
  | 4 => rfl
  | _ + 5 => rfl

/-- The compile-time dispatch of the binary in-place functor agrees with the
general loop path at every channel count. -/
lemma binary_in_place_call_eq_general (rmin : Int) (k : Nat)
    (func : Int → Int → Int) (arg1 arg2 : PixelMask) :
    PixelMaskBinaryInPlaceCompoundFunctor.call rmin k func arg1 arg2 =
    PixelMaskBinaryInPlaceCompoundFunctor.helperGeneral rmin k func arg1 arg2 :=
  match k with
  | 0 => rfl
  | 1 => rfl
  | 2 => rfl
  | 3 => rfl
  | 4 => rfl
  | _ + 5 => rfl

/-- The compile-time dispatch of the unary functional functor agrees with
the general loop path at every channel count. -/
lemma unary_call_eq_general (rmin rmax : Int) (k : Nat)
    (func : Int → Int) (arg : PixelMask) :
    PixelMaskUnaryCompoundFunctor.call rmin rmax k func arg =
    PixelMaskUnaryCompoundFunctor.helperGeneral rmin rmax k func arg :=
  match k with
  | 0 => rfl
  | 1 => rfl
  | 2 => rfl
  | 3 => rfl
  | 4 => rfl
  | _ + 5 => rfl

/-- The compile-time dispatch of the unary in-place functor agrees with the
general loop path at every channel count. -/
lemma unary_in_place_call_eq_general (rmin : Int) (k : Nat)
    (func : Int → Int) (arg : PixelMask) :
    PixelMaskUnaryInPlaceCompoundFunctor.call rmin k func arg =
    PixelMaskUnaryInPlaceCompoundFunctor.helperGeneral rmin k func arg :=
  match k with
  | 0 => rfl
  | 1 => rfl
  | 2 => rfl
  | 3 => rfl
  | 4 => rfl
  | _ + 5 => rfl

/-!
Claim theorems.
-/

/-- C1: for every pair of masked values and every elementwise operator, the
result of a binary dispatch operation (functional or in-place) is valid if
and only if both operands are valid; for every unary dispatch operation
(functional or in-place), the result is valid if and only if the operand
is. -/
theorem C1_validity_propagation (rmin rmax : Int) (k : Nat)
    (f g : Int → Int → Int) (u w : Int → Int) (a b c d : PixelMask)
    (hmin : rmin = 0) (hmax : rmax ≠ 0)
    (ha : a.m_child.length = k) (hb : b.m_child.length = k)
    (hc : c.m_child.length = k) (hd : d.m_child.length = k) :
    (PixelMaskBinaryCompoundFunctor.call rmin rmax k f a b).isValid
        = (a.isValid && b.isValid) ∧
    (PixelMaskBinaryInPlaceCompoundFunctor.call rmin k g a b).isValid
        = (a.isValid && b.isValid) ∧
    (PixelMaskUnaryCompoundFunctor.call rmin rmax k u c).isValid = c.isValid ∧
    (PixelMaskUnaryInPlaceCompoundFunctor.call rmin k w d).isValid = d.isValid := by
  subst hmin
  refine ⟨?_, ?_, ?_, ?_⟩
  · rw [binary_call_eq_general]
    unfold PixelMaskBinaryCompoundFunctor.helperGeneral
    cases hv : (a.isValid && b.isValid) with
    | false => simp [hv, PixelMask.isValid, PixelMask.mkDefault]
    | true =>
      rw [if_pos rfl]
      simp [PixelMask.isValid, PixelMask.validate, bne_iff_ne]
      exact hmax
  · rw [binary_in_place_call_eq_general]
    unfold PixelMaskBinaryInPlaceCompoundFunctor.helperGeneral
    cases hv : (a.isValid && b.isValid) with
    | false => simp [hv, PixelMask.isValid, PixelMask.mkDefault]
    | true =>
      rw [if_pos rfl, inPlaceFold_eq]
      have hval := stepFold_valid (fun p i => g (p.getChan i) (b.getChan i)) a k
        (by rw [ha])
      have ha2 : a.isValid = true := by
        have h2 := hv
        rw [Bool.and_eq_true] at h2
        exact h2.1
      unfold PixelMask.isValid at ha2 ⊢
      rw [hval]
      exact ha2
  · rw [unary_call_eq_general]
    unfold PixelMaskUnaryCompoundFunctor.helperGeneral
    cases hv : c.isValid with
    | false => simp [hv, PixelMask.isValid, PixelMask.mkDefault]
    | true =>
      rw [if_pos rfl]
      simp [PixelMask.isValid, PixelMask.validate, bne_iff_ne]
      exact hmax
  · rw [unary_in_place_call_eq_general]
    unfold PixelMaskUnaryInPlaceCompoundFunctor.helperGeneral
    cases hv : d.isValid with
    | false => simp [hv, PixelMask.isValid, PixelMask.mkDefault]
    | true =>
      rw [if_pos rfl, inPlaceFold1_eq]
      have hval := stepFold_valid (fun p i => w (p.getChan i)) d k (by rw [hd])
      unfold PixelMask.isValid at hv ⊢
      rw [hval]
      exact hv

/-- Witness for C1 at the canonical unsigned provider, one payload channel,
addition, a valid and an invalid operand. -/
theorem C1_validity_propagation_witness :
    ((0 : Int) = 0 ∧ (255 : Int) ≠ 0) ∧
    ((PixelMaskBinaryCompoundFunctor.call 0 255 1 (fun x y => x + y)
        (PixelMask.mk [5] 255) (PixelMask.mk [7] 0)).isValid
      = ((PixelMask.mk [5] 255).isValid && (PixelMask.mk [7] 0).isValid) ∧
    (PixelMaskBinaryInPlaceCompoundFunctor.call 0 1 (fun x y => x + y)
        (PixelMask.mk [5] 255) (PixelMask.mk [7] 0)).isValid
      = ((PixelMask.mk [5] 255).isValid && (PixelMask.mk [7] 0).isValid) ∧
    (PixelMaskUnaryCompoundFunctor.call 0 255 1 (fun x => x + 1)
        (PixelMask.mk [3] 255)).isValid = (PixelMask.mk [3] 255).isValid ∧
    (PixelMaskUnaryInPlaceCompoundFunctor.call 0 1 (fun x => x + 1)
        (PixelMask.mk [4] 0)).isValid = (PixelMask.mk [4] 0).isValid) :=
  ⟨⟨rfl, by decide⟩,
    C1_validity_propagation 0 255 1 (fun x y => x + y) (fun x y => x + y)
      (fun x => x + 1) (fun x => x + 1)
      (PixelMask.mk [5] 255) (PixelMask.mk [7] 0)
      (PixelMask.mk [3] 255) (PixelMask.mk [4] 0)
      rfl (by decide) rfl rfl rfl rfl⟩

/-- C2: for every elementwise function and masked operands, if both test
valid then `compound_apply` returns a valid masked value whose payload
channel `i` is `func(a[i], b[i])` for every payload channel index; if either
operand is invalid the result is the default-constructed (invalid) value and
the function is never consulted (the result does not depend on it). -/
theorem C2_binary_dispatch (rmin rmax : Int) (k : Nat) (func : Int → Int → Int)
    (a b : PixelMask) (hmin : rmin = 0) (hmax : rmax ≠ 0)
    (ha : a.m_child.length = k) (hb : b.m_child.length = k) :
    (a.isValid = true → b.isValid = true →
      (compound_apply rmin rmax k func a b).isValid = true ∧
      (compound_apply rmin rmax k func a b).m_child.length = k ∧
      ∀ i, i < k →
        (compound_apply rmin rmax k func a b).m_child.getD i 0 =
          func (a.getChan i) (b.getChan i)) ∧
    ((a.isValid = false ∨ b.isValid = false) →
      compound_apply rmin rmax k func a b = PixelMask.mkDefault rmin k ∧
      (compound_apply rmin rmax k func a b).isValid = false ∧
      ∀ f2 : Int → Int → Int,
        compound_apply rmin rmax k f2 a b = compound_apply rmin rmax k func a b) := by
  subst hmin
  unfold compound_apply
  constructor
  · intro hva hvb
    have hv : (a.isValid && b.isValid) = true := by rw [hva, hvb]; rfl
    have hcase : PixelMaskBinaryCompoundFunctor.call 0 rmax k func a b =
        PixelMask.validate rmax
          (stepFold (fun _ i => func (a.getChan i) (b.getChan i))
            (PixelMask.mkDefault 0 k) k) := by
      rw [binary_call_eq_general]
      unfold PixelMaskBinaryCompoundFunctor.helperGeneral
      rw [if_pos hv, binFold_eq]
    rw [hcase]
    have hSlen : (stepFold (fun _ i => func (a.getChan i) (b.getChan i))
        (PixelMask.mkDefault 0 k) k).m_child.length = k := by
      rw [stepFold_length, PixelMask.length_mkDefault]
    refine ⟨?_, ?_, ?_⟩
    · simp [PixelMask.isValid, PixelMask.validate, bne_iff_ne]
      exact hmax
    · rw [PixelMask.child_validate, hSlen]
    · intro i hik
      rw [PixelMask.child_validate,
        stepFold_getD _ _ _
          (by rw [PixelMask.length_mkDefault] : k ≤ (PixelMask.mkDefault 0 k).m_child.length) i,
        if_pos hik]
  · intro hw
    have hv : (a.isValid && b.isValid) = false := by
      rcases hw with h | h <;> simp [h]
    have hnv : ¬((a.isValid && b.isValid) = true) := by simp [hv]
    rw [binary_call_eq_general]
    unfold PixelMaskBinaryCompoundFunctor.helperGeneral
    rw [if_neg hnv]
    refine ⟨rfl, by simp [PixelMask.isValid, PixelMask.mkDefault], ?_⟩
    intro f2
    rw [binary_call_eq_general]
    unfold PixelMaskBinaryCompoundFunctor.helperGeneral
    rw [if_neg hnv]

/-- Witness for C2: two valid single-channel values 5 and 7 under addition
(the spec's concrete scenario). -/
theorem C2_binary_dispatch_witness :
    ((0 : Int) = 0 ∧ (255 : Int) ≠ 0 ∧
      (PixelMask.mk [5] 255).m_child.length = 1 ∧
      (PixelMask.mk [7] 255).m_child.length = 1) ∧
    (((PixelMask.mk [5] 255).isValid = true → (PixelMask.mk [7] 255).isValid = true →
      (compound_apply 0 255 1 (fun x y => x + y)
          (PixelMask.mk [5] 255) (PixelMask.mk [7] 255)).isValid = true ∧
      (compound_apply 0 255 1 (fun x y => x + y)
          (PixelMask.mk [5] 255) (PixelMask.mk [7] 255)).m_child.length = 1 ∧
      ∀ i, i < 1 →
        (compound_apply 0 255 1 (fun x y => x + y)
            (PixelMask.mk [5] 255) (PixelMask.mk [7] 255)).m_child.getD i 0 =
          (fun x y => x + y) ((PixelMask.mk [5] 255).getChan i)
            ((PixelMask.mk [7] 255).getChan i)) ∧
    (((PixelMask.mk [5] 255).isValid = false ∨ (PixelMask.mk [7] 255).isValid = false) →
      compound_apply 0 255 1 (fun x y => x + y)
          (PixelMask.mk [5] 255) (PixelMask.mk [7] 255) = PixelMask.mkDefault 0 1 ∧
      (compound_apply 0 255 1 (fun x y => x + y)
          (PixelMask.mk [5] 255) (PixelMask.mk [7] 255)).isValid = false ∧
      ∀ f2 : Int → Int → Int,
        compound_apply 0 255 1 f2 (PixelMask.mk [5] 255) (PixelMask.mk [7] 255) =
          compound_apply 0 255 1 (fun x y => x + y)
            (PixelMask.mk [5] 255) (PixelMask.mk [7] 255))) :=
  ⟨⟨rfl, by decide, rfl, rfl⟩,
    C2_binary_dispatch 0 255 1 (fun x y => x + y)
      (PixelMask.mk [5] 255) (PixelMask.mk [7] 255) rfl (by decide) rfl rfl⟩

/-- C6: for payload channel counts 1 to 4, the fixed-arity unrolled dispatch
path produces results identical to the general channel-loop path, for each
of the four operator shapes. -/
theorem C6_unrolled_general_equiv (rmin rmax : Int) (k : Nat)
    (f g : Int → Int → Int) (u w : Int → Int) (a b c d : PixelMask)
    (hk1 : 1 ≤ k) (hk4 : k ≤ 4)
    (ha : a.m_child.length = k) (hb : b.m_child.length = k)
    (hc : c.m_child.length = k) (hd : d.m_child.length = k) :
    PixelMaskBinaryCompoundFunctor.call rmin rmax k f a b =
      PixelMaskBinaryCompoundFunctor.helperGeneral rmin rmax k f a b ∧
    PixelMaskBinaryInPlaceCompoundFunctor.call rmin k g a b =
      PixelMaskBinaryInPlaceCompoundFunctor.helperGeneral rmin k g a b ∧
    PixelMaskUnaryCompoundFunctor.call rmin rmax k u c =
      PixelMaskUnaryCompoundFunctor.helperGeneral rmin rmax k u c ∧
    PixelMaskUnaryInPlaceCompoundFunctor.call rmin k w d =
      PixelMaskUnaryInPlaceCompoundFunctor.helperGeneral rmin k w d :=
  ⟨binary_call_eq_general rmin rmax k f a b,
    binary_in_place_call_eq_general rmin k g a b,
    unary_call_eq_general rmin rmax k u c,
    unary_in_place_call_eq_general rmin k w d⟩

/-- Witness for C6 at two payload channels. -/
theorem C6_unrolled_general_equiv_witness :
    (1 ≤ 2 ∧ 2 ≤ 4) ∧
    (PixelMaskBinaryCompoundFunctor.call 0 255 2 (fun x y => x * y)
        (PixelMask.mk [2, 3] 255) (PixelMask.mk [4, 5] 255) =
      PixelMaskBinaryCompoundFunctor.helperGeneral 0 255 2 (fun x y => x * y)
        (PixelMask.mk [2, 3] 255) (PixelMask.mk [4, 5] 255) ∧
    PixelMaskBinaryInPlaceCompoundFunctor.call 0 2 (fun x y => x * y)
        (PixelMask.mk [2, 3] 255) (PixelMask.mk [4, 5] 255) =
      PixelMaskBinaryInPlaceCompoundFunctor.helperGeneral 0 2 (fun x y => x * y)
        (PixelMask.mk [2, 3] 255) (PixelMask.mk [4, 5] 255) ∧
    PixelMaskUnaryCompoundFunctor.call 0 255 2 (fun x => x - 1)
        (PixelMask.mk [8, 9] 255) =
      PixelMaskUnaryCompoundFunctor.helperGeneral 0 255 2 (fun x => x - 1)
        (PixelMask.mk [8, 9] 255) ∧
    PixelMaskUnaryInPlaceCompoundFunctor.call 0 2 (fun x => x - 1)
        (PixelMask.mk [1, 6] 0) =
      PixelMaskUnaryInPlaceCompoundFunctor.helperGeneral 0 2 (fun x => x - 1)
        (PixelMask.mk [1, 6] 0)) :=
  ⟨⟨by decide, by decide⟩,
    C6_unrolled_general_equiv 0 255 2 (fun x y => x * y) (fun x y => x * y)
      (fun x => x - 1) (fun x => x - 1)
      (PixelMask.mk [2, 3] 255) (PixelMask.mk [4, 5] 255)
      (PixelMask.mk [8, 9] 255) (PixelMask.mk [1, 6] 0)
      (by decide) (by decide) rfl rfl rfl rfl⟩

/-- C3 (defect evaluation): `apply_mask` over a single invalid masked pixel
with requested replacement value `[255]` returns the default-initialized
zero replacement `[0]`, because the `ApplyPixelMaskView` constructor never
stores its `replacement_value` argument. -/
theorem C3_replacement_ignored :
    (apply_mask 1 (fun _ _ _ => PixelMask.mk [7] 0) [255]).app 0 0 0 = [0] ∧
    ([0] : List Int) ≠ [255] := by
  exact ⟨rfl, by decide⟩

/-- C4: with the sentinel configured, a pixel equal to the sentinel is
wrapped and marked invalid, any other pixel is wrapped and marked valid;
with no sentinel configured every pixel is wrapped and marked valid. -/
theorem C4_create_mask_sentinel (rmin rmax : Int) (v : CreatePixelMaskView)
    (col row plane : Int) (hmin : rmin = 0) (hmax : rmax ≠ 0) :
    (v.m_use_nodata_value = true →
      (v.m_view col row plane = v.m_nodata_value →
        v.app rmin rmax col row plane =
          PixelMask.mk (v.m_view col row plane) rmin ∧
        (v.app rmin rmax col row plane).isValid = false) ∧
      (v.m_view col row plane ≠ v.m_nodata_value →
        v.app rmin rmax col row plane =
          PixelMask.mk (v.m_view col row plane) rmax ∧
        (v.app rmin rmax col row plane).isValid = true)) ∧
    (v.m_use_nodata_value = false →
      v.app rmin rmax col row plane =
        PixelMask.mk (v.m_view col row plane) rmax ∧
      (v.app rmin rmax col row plane).isValid = true) := by
  subst hmin
  unfold CreatePixelMaskView.app
  refine ⟨fun hu => ⟨fun he => ?_, fun hne => ?_⟩, fun hu => ?_⟩
  · have hcond : (v.m_use_nodata_value &&
        (v.m_view col row plane == v.m_nodata_value)) = true := by
      rw [hu, he]
      simp
    rw [if_pos hcond]
    exact ⟨rfl, by simp [PixelMask.isValid, PixelMask.invalidate]⟩
  · have hcond : (v.m_use_nodata_value &&
        (v.m_view col row plane == v.m_nodata_value)) = false := by
      rw [hu]
      simp [hne]
    rw [if_neg (by simp [hcond])]
    refine ⟨rfl, ?_⟩
    simp [PixelMask.isValid, PixelMask.fromChild, bne_iff_ne]
    exact hmax
  · have hcond : (v.m_use_nodata_value &&
        (v.m_view col row plane == v.m_nodata_value)) = false := by
      rw [hu]
      simp
    rw [if_neg (by simp [hcond])]
    refine ⟨rfl, ?_⟩
    simp [PixelMask.isValid, PixelMask.fromChild, bne_iff_ne]
    exact hmax

/-- Witness for C4 with a sentinel-configured view whose pixel equals the
sentinel. -/
theorem C4_create_mask_sentinel_witness :
    ((0 : Int) = 0 ∧ (255 : Int) ≠ 0) ∧
    (((CreatePixelMaskView.mk (fun _ _ _ => [5]) [5] true).m_use_nodata_value = true →
      ((CreatePixelMaskView.mk (fun _ _ _ => [5]) [5] true).m_view 0 0 0 =
          (CreatePixelMaskView.mk (fun _ _ _ => [5]) [5] true).m_nodata_value →
        (CreatePixelMaskView.mk (fun _ _ _ => [5]) [5] true).app 0 255 0 0 0 =
          PixelMask.mk
            ((CreatePixelMaskView.mk (fun _ _ _ => [5]) [5] true).m_view 0 0 0) 0 ∧
        ((CreatePixelMaskView.mk (fun _ _ _ => [5]) [5] true).app 0 255 0 0 0).isValid
          = false) ∧
      ((CreatePixelMaskView.mk (fun _ _ _ => [5]) [5] true).m_view 0 0 0 ≠
          (CreatePixelMaskView.mk (fun _ _ _ => [5]) [5] true).m_nodata_value →
        (CreatePixelMaskView.mk (fun _ _ _ => [5]) [5] true).app 0 255 0 0 0 =
          PixelMask.mk
            ((CreatePixelMaskView.mk (fun _ _ _ => [5]) [5] true).m_view 0 0 0) 255 ∧
        ((CreatePixelMaskView.mk (fun _ _ _ => [5]) [5] true).app 0 255 0 0 0).isValid
          = true)) ∧
    ((CreatePixelMaskView.mk (fun _ _ _ => [5]) [5] true).m_use_nodata_value = false →
      (CreatePixelMaskView.mk (fun _ _ _ => [5]) [5] true).app 0 255 0 0 0 =
        PixelMask.mk
          ((CreatePixelMaskView.mk (fun _ _ _ => [5]) [5] true).m_view 0 0 0) 255 ∧
      ((CreatePixelMaskView.mk (fun _ _ _ => [5]) [5] true).app 0 255 0 0 0).isValid
        = true)) :=
  ⟨⟨rfl, by decide⟩,
    C4_create_mask_sentinel 0 255 (CreatePixelMaskView.mk (fun _ _ _ => [5]) [5] true)
      0 0 0 rfl (by decide)⟩

/-- C5: for a plain pixel value `x` different from the configured sentinel
`s`, applying the mask-application view to the mask-creation view yields `x`
unchanged at any coordinate holding `x`. -/
theorem C5_round_trip (rmin rmax : Int) (k : Nat)
    (view : Int → Int → Int → List Int) (x s repl : List Int)
    (col row plane : Int)
    (hx : view col row plane = x) (hxs : x ≠ s) (hmax : rmax ≠ 0) :
    (apply_mask k (fun c r p => (create_mask view s).app rmin rmax c r p) repl).app
        col row plane = x := by
  have hpx : (create_mask view s).app rmin rmax col row plane =
      PixelMask.mk x rmax := by
    unfold create_mask CreatePixelMaskView.set_nodata_value
      CreatePixelMaskView.ctor CreatePixelMaskView.app
    simp [hx, hxs, PixelMask.fromChild]
  show (let px := (create_mask view s).app rmin rmax col row plane
    if !(is_transparent px) then px.m_child else List.replicate k 0) = x
  rw [hpx]
  simp [is_transparent, PixelMask.isValid, bne_iff_ne, hmax]

/-- Witness for C5 with a constant one-pixel image of value 5 and sentinel
0. -/
theorem C5_round_trip_witness :
    ((fun (_ _ _ : Int) => ([5] : List Int)) 0 0 0 = [5] ∧
      ([5] : List Int) ≠ [0] ∧ (255 : Int) ≠ 0) ∧
    (apply_mask 1
        (fun c r p => (create_mask (fun _ _ _ => [5]) [0]).app 0 255 c r p)
        [9]).app 0 0 0 = [5] :=
  ⟨⟨rfl, by decide, by decide⟩,
    C5_round_trip 0 255 1 (fun _ _ _ => [5]) [5] [0] [9] 0 0 0 rfl
      (by decide) (by decide)⟩

/-- C9 (defect evaluation): `mean_channel_value` on the valid single-channel
masked value 5 evaluates to 0 rather than the arithmetic mean 5 of the
payload channels, because the `num_channels - 1` loop bound is applied to
the child's channel count. -/
theorem C9_mean_single_channel :
    mean_channel_value (PixelMask.mk [5] 255) = 0 ∧ (5 : Rat) ≠ 0 := by
  refine ⟨?_, by norm_num⟩
  unfold mean_channel_value
  norm_num [PixelMask.isValid]

/-- C10: the two-argument `CreatePixelMaskView` constructor ignores its
nodata argument and clears the use-nodata flag, so a directly constructed
view returns every queried pixel valid; `set_nodata_value` activates the
sentinel, and the two-argument `create_mask` factory performs that call. -/
theorem C10_ctor_nodata (rmin rmax : Int)
    (view : Int → Int → Int → List Int) (n1 n2 value : List Int)
    (v0 : CreatePixelMaskView) (col row plane : Int) (hmax : rmax ≠ 0) :
    (CreatePixelMaskView.ctor view n1).m_use_nodata_value = false ∧
    CreatePixelMaskView.ctor view n1 = CreatePixelMaskView.ctor view n2 ∧
    (CreatePixelMaskView.ctor view n1).app rmin rmax col row plane =
      PixelMask.mk (view col row plane) rmax ∧
    ((CreatePixelMaskView.ctor view n1).app rmin rmax col row plane).isValid
      = true ∧
    (v0.set_nodata_value value).m_nodata_value = value ∧
    (v0.set_nodata_value value).m_use_nodata_value = true ∧
    create_mask view value =
      (CreatePixelMaskView.ctor view value).set_nodata_value value := by
  refine ⟨rfl, rfl, rfl, ?_, rfl, rfl, rfl⟩
  show ((PixelMask.fromChild rmax (view col row plane)).isValid) = true
  simp [PixelMask.isValid, PixelMask.fromChild, bne_iff_ne]
  exact hmax

/-- Witness for C10 with two different ignored nodata arguments. -/
theorem C10_ctor_nodata_witness :
    ((255 : Int) ≠ 0) ∧
    ((CreatePixelMaskView.ctor (fun _ _ _ => [3]) [1]).m_use_nodata_value = false ∧
    CreatePixelMaskView.ctor (fun (_ _ _ : Int) => ([3] : List Int)) [1] =
      CreatePixelMaskView.ctor (fun _ _ _ => [3]) [2] ∧
    (CreatePixelMaskView.ctor (fun _ _ _ => [3]) [1]).app 0 255 0 0 0 =
      PixelMask.mk ((fun (_ _ _ : Int) => ([3] : List Int)) 0 0 0) 255 ∧
    ((CreatePixelMaskView.ctor (fun _ _ _ => [3]) [1]).app 0 255 0 0 0).isValid
      = true ∧
    ((CreatePixelMaskView.mk (fun _ _ _ => [3]) [] false).set_nodata_value [7]).m_nodata_value
      = [7] ∧
    ((CreatePixelMaskView.mk (fun _ _ _ => [3]) [] false).set_nodata_value [7]).m_use_nodata_value
      = true ∧
    create_mask (fun _ _ _ => [3]) [7] =
      (CreatePixelMaskView.ctor (fun _ _ _ => [3]) [7]).set_nodata_value [7]) :=
  ⟨by decide,
    C10_ctor_nodata 0 255 (fun _ _ _ => [3]) [1] [2] [7]
      (CreatePixelMaskView.mk (fun _ _ _ => [3]) [] false) 0 0 0 (by decide)⟩

/-- C7: after every constructor (default, implicit from a child value,
conversion from another well-formed masked value, the 2/3/4-channel
positional constructors) and every mutating operation (`validate`,
`invalidate`, the binary and unary in-place dispatch operations on
well-formed operands), the validity channel is exactly the provider's
minimum or exactly its maximum value. -/
theorem C7_validity_encoding (rmin rmax : Int) (k : Nat)
    (pix : List Int) (conv : List Int → List Int)
    (g : Int → Int → Int) (w : Int → Int)
    (other a b d : PixelMask) (x0 x1 x2 x3 : Int)
    (hother : other.m_valid = rmin ∨ other.m_valid = rmax)
    (hA : a.m_valid = rmin ∨ a.m_valid = rmax) (ha : a.m_child.length = k)
    (hD : d.m_valid = rmin ∨ d.m_valid = rmax) (hd : d.m_child.length = k) :
    ((PixelMask.mkDefault rmin k).m_valid = rmin ∨
      (PixelMask.mkDefault rmin k).m_valid = rmax) ∧
    ((PixelMask.fromChild rmax pix).m_valid = rmin ∨
      (PixelMask.fromChild rmax pix).m_valid = rmax) ∧
    ((PixelMask.convert rmax k conv other).m_valid = rmin ∨
      (PixelMask.convert rmax k conv other).m_valid = rmax) ∧
    ((PixelMask.mkCh2 rmax x0 x1).m_valid = rmin ∨
      (PixelMask.mkCh2 rmax x0 x1).m_valid = rmax) ∧
    ((PixelMask.mkCh3 rmax x0 x1 x2).m_valid = rmin ∨
      (PixelMask.mkCh3 rmax x0 x1 x2).m_valid = rmax) ∧
    ((PixelMask.mkCh4 rmax x0 x1 x2 x3).m_valid = rmin ∨
      (PixelMask.mkCh4 rmax x0 x1 x2 x3).m_valid = rmax) ∧
    ((PixelMask.validate rmax a).m_valid = rmin ∨
      (PixelMask.validate rmax a).m_valid = rmax) ∧
    ((PixelMask.invalidate rmin a).m_valid = rmin ∨
      (PixelMask.invalidate rmin a).m_valid = rmax) ∧
    ((PixelMaskBinaryInPlaceCompoundFunctor.call rmin k g a b).m_valid = rmin ∨
      (PixelMaskBinaryInPlaceCompoundFunctor.call rmin k g a b).m_valid = rmax) ∧
    ((PixelMaskUnaryInPlaceCompoundFunctor.call rmin k w d).m_valid = rmin ∨
      (PixelMaskUnaryInPlaceCompoundFunctor.call rmin k w d).m_valid = rmax) := by
  refine ⟨Or.inl rfl, Or.inr rfl, ?_, Or.inr rfl, Or.inr rfl, Or.inr rfl,
    Or.inr rfl, Or.inl rfl, ?_, ?_⟩
  · unfold PixelMask.convert
    split
    · exact Or.inr rfl
    · rename_i hfalse
      have h0 : other.m_valid = 0 := by
        simpa [bne_iff_ne] using hfalse
      show (0 : Int) = rmin ∨ (0 : Int) = rmax
      rw [← h0]
      exact hother
  · rw [binary_in_place_call_eq_general]
    unfold PixelMaskBinaryInPlaceCompoundFunctor.helperGeneral
    cases hv : (a.isValid && b.isValid) with
    | false =>
      rw [if_neg (by simp [hv])]
      exact Or.inl rfl
    | true =>
      rw [if_pos rfl, inPlaceFold_eq,
        stepFold_valid (fun p i => g (p.getChan i) (b.getChan i)) a k (by rw [ha])]
      exact hA
  · rw [unary_in_place_call_eq_general]
    unfold PixelMaskUnaryInPlaceCompoundFunctor.helperGeneral
    cases hv : d.isValid with
    | false =>
      rw [if_neg (by simp [hv])]
      exact Or.inl rfl
    | true =>
      rw [if_pos rfl, inPlaceFold1_eq,
        stepFold_valid (fun p i => w (p.getChan i)) d k (by rw [hd])]
      exact hD

/-- Witness for C7 at the canonical unsigned provider, one payload channel,
a valid conversion source and one valid and one invalid in-place operand. -/
theorem C7_validity_encoding_witness :
    (((PixelMask.mk [1] 0).m_valid = 0 ∨ (PixelMask.mk [1] 0).m_valid = 255) ∧
      ((PixelMask.mk [2] 255).m_valid = 0 ∨ (PixelMask.mk [2] 255).m_valid = 255) ∧
      ((PixelMask.mk [4] 0).m_valid = 0 ∨ (PixelMask.mk [4] 0).m_valid = 255)) ∧
    (((PixelMask.mkDefault 0 1).m_valid = 0 ∨ (PixelMask.mkDefault 0 1).m_valid = 255) ∧
    ((PixelMask.fromChild 255 [9]).m_valid = 0 ∨
      (PixelMask.fromChild 255 [9]).m_valid = 255) ∧
    ((PixelMask.convert 255 1 id (PixelMask.mk [1] 0)).m_valid = 0 ∨
      (PixelMask.convert 255 1 id (PixelMask.mk [1] 0)).m_valid = 255) ∧
    ((PixelMask.mkCh2 255 1 2).m_valid = 0 ∨ (PixelMask.mkCh2 255 1 2).m_valid = 255) ∧
    ((PixelMask.mkCh3 255 1 2 3).m_valid = 0 ∨
      (PixelMask.mkCh3 255 1 2 3).m_valid = 255) ∧
    ((PixelMask.mkCh4 255 1 2 3 4).m_valid = 0 ∨
      (PixelMask.mkCh4 255 1 2 3 4).m_valid = 255) ∧
    ((PixelMask.validate 255 (PixelMask.mk [2] 255)).m_valid = 0 ∨
      (PixelMask.validate 255 (PixelMask.mk [2] 255)).m_valid = 255) ∧
    ((PixelMask.invalidate 0 (PixelMask.mk [2] 255)).m_valid = 0 ∨
      (PixelMask.invalidate 0 (PixelMask.mk [2] 255)).m_valid = 255) ∧
    ((PixelMaskBinaryInPlaceCompoundFunctor.call 0 1 (fun x y => x + y)
        (PixelMask.mk [2] 255) (PixelMask.mk [3] 255)).m_valid = 0 ∨
      (PixelMaskBinaryInPlaceCompoundFunctor.call 0 1 (fun x y => x + y)
        (PixelMask.mk [2] 255) (PixelMask.mk [3] 255)).m_valid = 255) ∧
    ((PixelMaskUnaryInPlaceCompoundFunctor.call 0 1 (fun x => x + 1)
        (PixelMask.mk [4] 0)).m_valid = 0 ∨
      (PixelMaskUnaryInPlaceCompoundFunctor.call 0 1 (fun x => x + 1)
        (PixelMask.mk [4] 0)).m_valid = 255)) :=
  ⟨⟨Or.inl rfl, Or.inr rfl, Or.inl rfl⟩,
    C7_validity_encoding 0 255 1 [9] id (fun x y => x + y) (fun x => x + 1)
      (PixelMask.mk [1] 0) (PixelMask.mk [2] 255) (PixelMask.mk [3] 255)
      (PixelMask.mk [4] 0) 1 2 3 4
      (Or.inl rfl) (Or.inr rfl) rfl (Or.inl rfl) rfl⟩

/-- C8: the channel indexing `operator[]` (read and write forms) yields the
validity channel at index equal to the payload channel count and the
payload's own channel at smaller indices.  (The `operator()` overloads are
the known defect; see the results entry.) -/
theorem C8_channel_index_boundary (p : PixelMask) (k i : Nat) (v : Int)
    (hp : p.m_child.length = k) :
    (i = k → p.getChan i = p.m_valid ∧
      (p.setChan i v).m_valid = v ∧ (p.setChan i v).m_child = p.m_child) ∧
    (i < k → p.getChan i = p.m_child.getD i 0 ∧
      (p.setChan i v).m_child = p.m_child.set i v ∧
      (p.setChan i v).m_valid = p.m_valid) := by
  subst hp
  constructor
  · intro hik
    simp [PixelMask.getChan, PixelMask.setChan, hik]
  · intro hik
    simp [PixelMask.getChan, PixelMask.setChan, Nat.ne_of_lt hik]

/-- Witness for C8 on a two-channel payload at the boundary index and at a
payload index. -/
theorem C8_channel_index_boundary_witness :
    ((PixelMask.mk [5, 6] 255).m_child.length = 2 ∧
      (PixelMask.mk [5, 6] 255).m_child.length = 2) ∧
    ((2 = 2 → (PixelMask.mk [5, 6] 255).getChan 2 = (PixelMask.mk [5, 6] 255).m_valid ∧
      ((PixelMask.mk [5, 6] 255).setChan 2 9).m_valid = 9 ∧
      ((PixelMask.mk [5, 6] 255).setChan 2 9).m_child = (PixelMask.mk [5, 6] 255).m_child) ∧
    (2 < 2 → (PixelMask.mk [5, 6] 255).getChan 2 =
        (PixelMask.mk [5, 6] 255).m_child.getD 2 0 ∧
      ((PixelMask.mk [5, 6] 255).setChan 2 9).m_child =
        (PixelMask.mk [5, 6] 255).m_child.set 2 9 ∧
      ((PixelMask.mk [5, 6] 255).setChan 2 9).m_valid =
        (PixelMask.mk [5, 6] 255).m_valid)) ∧
    ((1 = 2 → (PixelMask.mk [5, 6] 255).getChan 1 = (PixelMask.mk [5, 6] 255).m_valid ∧
      ((PixelMask.mk [5, 6] 255).setChan 1 9).m_valid = 9 ∧
      ((PixelMask.mk [5, 6] 255).setChan 1 9).m_child = (PixelMask.mk [5, 6] 255).m_child) ∧
    (1 < 2 → (PixelMask.mk [5, 6] 255).getChan 1 =
        (PixelMask.mk [5, 6] 255).m_child.getD 1 0 ∧
      ((PixelMask.mk [5, 6] 255).setChan 1 9).m_child =
        (PixelMask.mk [5, 6] 255).m_child.set 1 9 ∧
      ((PixelMask.mk [5, 6] 255).setChan 1 9).m_valid =
        (PixelMask.mk [5, 6] 255).m_valid)) :=
  ⟨⟨rfl, rfl⟩,
    C8_channel_index_boundary (PixelMask.mk [5, 6] 255) 2 2 9 rfl,
    C8_channel_index_boundary (PixelMask.mk [5, 6] 255) 2 1 9 rfl⟩

end VW
